import Mathlib

/-
Verification of the request/response translation layer of the
anthropic-oauth-max-plan router.

Sources embedded here:
- src/types.ts                     (wire-format data model)
- src/client.ts                    (makeAnthropicRequest body construction)
- src/router/server.ts             (handleMessagesRequest)
- openspec/changes/add-openai-compatibility/design.md
                                   (mapOpenAIModel implementation, Decision 2)
The modules src/router/translator.ts, src/router/model-mapper.ts and
src/router/middleware.ts are referenced by the router sources and the
design documents but are not present in the source tree; the definitions
for them below are modelled from the specification, as marked in their
doc comments.
-/

/-! ## Data model -/

/-- Role of an inbound OpenAI-format chat message (system|user|assistant|tool). -/
inductive ORole
  | system
  | user
  | assistant
  | tool
  deriving DecidableEq, Repr

/-- Role of a native (Anthropic-format) message; src/types.ts Message.role is
the union user | assistant, so a native message can never carry a system role. -/
inductive NRole
  | user
  | assistant
  deriving DecidableEq, Repr

/-- Inbound OpenAI-format chat message; textual content only, as in the
message-consolidation logic of the design. -/
structure ChatMessage where
  role : ORole
  content : String
  deriving DecidableEq, Repr

/-- Native message produced by the request translator. -/
structure NativeMessage where
  role : NRole
  content : String
  deriving DecidableEq, Repr

/-- System block entry, src/types.ts SystemMessage (the constant type:"text"
tag and the optional cache_control field are omitted). -/
structure SystemMessage where
  text : String
  deriving DecidableEq, Repr

/-- OpenAI tool function payload; the JSON Schema in parameters is carried
opaquely as its serialized form. -/
structure OToolFunction where
  name : String
  description : String
  parameters : String
  deriving DecidableEq, Repr

/-- OpenAI tool wrapper: name/description/parameters nested under function. -/
structure OTool where
  function : OToolFunction
  deriving DecidableEq, Repr

/-- Native tool shape, src/types.ts Tool: flat name/description/input_schema. -/
structure NativeTool where
  name : String
  description : String
  input_schema : String
  deriving DecidableEq, Repr

/-- Inbound OpenAI Chat Completions request (the fields the translation layer
reads or drops). -/
structure ChatCompletionRequest where
  model : String
  messages : List ChatMessage
  max_tokens : Option Nat
  temperature : Option Rat
  presence_penalty : Option Rat
  frequency_penalty : Option Rat
  logit_bias : Option (List (String × Int))
  n : Option Nat
  logprobs : Option Bool
  stream : Option Bool
  tools : Option (List OTool)
  deriving DecidableEq, Repr

/-- Modelled from the spec: the native request produced by the request
translator (translator.ts is not in the source tree); system is a sequence of
text blocks, messages must alternate, tools are flat, max_tokens and
temperature pass through. -/
structure NativeRequest where
  model : String
  system : List SystemMessage
  messages : List NativeMessage
  tools : List NativeTool
  max_tokens : Option Nat
  temperature : Option Rat
  stream : Option Bool
  deriving DecidableEq, Repr

/-! ## Model Mapper

Translated from the mapOpenAIModel implementation given in
openspec/changes/add-openai-compatibility/design.md (Decision 2); the
model-mapper.ts module itself is not in the source tree.  The custom-mappings
file and the ANTHROPIC_DEFAULT_MODEL environment variable are passed in
explicitly; JavaScript truthiness of a string is the test against "". -/

/-- Low-tier patterns from design.md Decision 2. -/
def lowTierPatterns : List String := ["-nano", "gpt-3.5", "gpt-3"]

/-- Substring containment (JavaScript String.includes). -/
def containsSubstring (s pat : String) : Bool :=
  decide (pat.toList <:+: s.toList)

/-- Character-wise lowercasing (JavaScript String.toLowerCase), stated over
the character list so that it evaluates by kernel reduction. -/
def toLowerString (s : String) : String :=
  String.mk (s.data.map Char.toLower)

/-- Pattern-based tier detection: low-tier patterns map to claude-haiku-4-5,
everything else to claude-sonnet-4-5 (design.md Decision 2, step 3). -/
def mapByPattern (modelName : String) : String :=
  let model := toLowerString modelName
  if lowTierPatterns.any (fun pat => containsSubstring model pat) then
    "claude-haiku-4-5"
  else
    "claude-sonnet-4-5"

/-- Model mapping cascade of design.md Decision 2: custom mappings file,
then environment override, then pattern tier detection.  A missing or
falsy (empty-string) entry falls through to the next rule, as in the
JavaScript truthiness tests of the original. -/
def mapOpenAIModel (customMappings : List (String × String))
    (envDefault : Option String) (modelName : String) : String :=
  let custom := (customMappings.lookup modelName).getD ""
  if custom ≠ "" then custom
  else
    let env := envDefault.getD ""
    if env ≠ "" then env
    else mapByPattern modelName

/-! ## Request Translator

Modelled from the spec: translator.ts is not in the source tree; the
definitions below follow section 4.2 of the specification (system-message
extraction, consecutive same-role consolidation with a blank-line separator,
flat tool remapping, max_tokens/temperature pass-through, n > 1 rejection). -/

/-- Role mapping used during consolidation: tool maps to user (a tool result
is a user-turn continuation), assistant stays assistant.  System messages are
removed before this map is applied. -/
def mapRole : ORole → NRole
  | ORole.assistant => NRole.assistant
  | _ => NRole.user

/-- Test for a system-role inbound message. -/
def isSystemRole (m : ChatMessage) : Bool :=
  decide (m.role = ORole.system)

/-- Texts of the system-role messages, in order. -/
def systemTexts (msgs : List ChatMessage) : List String :=
  (msgs.filter isSystemRole).map ChatMessage.content

/-- Modelled from the spec: all system-role texts joined with a blank-line
separator into one text block; no system messages yield an empty sequence. -/
def extractSystem (msgs : List ChatMessage) : List SystemMessage :=
  let ts := systemTexts msgs
  if ts.isEmpty then [] else [⟨String.intercalate "\n\n" ts⟩]

/-- The non-system inbound messages, in order. -/
def nonSystemMessages (msgs : List ChatMessage) : List ChatMessage :=
  msgs.filter (fun m => ! isSystemRole m)

/-- Consolidation worker: r and acc are the mapped role and joined content of
the group being accumulated; a message of the same mapped role is merged by
joining with a blank-line separator, a different role closes the group. -/
def consolidateGo (r : NRole) (acc : String) : List ChatMessage → List NativeMessage
  | [] => [⟨r, acc⟩]
  | m :: rest =>
    if mapRole m.role = r then
      consolidateGo r (acc ++ "\n\n" ++ m.content) rest
    else
      ⟨r, acc⟩ :: consolidateGo (mapRole m.role) m.content rest

/-- Modelled from the spec: walk the non-system messages in order, merging
consecutive entries whose mapped role is equal (section 4.2 step 3).  An
assistant-first list is forwarded as-is, no synthetic user message is
invented. -/
def consolidate : List ChatMessage → List NativeMessage
  | [] => []
  | m :: rest => consolidateGo (mapRole m.role) m.content rest

/-- Flat tool remapping (section 4.2 step 4): function.name to name,
function.description to description, function.parameters to input_schema. -/
def translateTool (t : OTool) : NativeTool :=
  ⟨t.function.name, t.function.description, t.function.parameters⟩

/-- Failure taxonomy of the request translator. -/
inductive TranslationFailure
  | translationError (message : String)
  | unsupportedFeature (field : String)
  deriving DecidableEq, Repr

/-- Modelled from the spec: the request translator (section 4.2).  Fails with
a TranslationError when messages is empty, with an UnsupportedFeatureError
when n is present and greater than 1; otherwise extracts system messages,
consolidates the rest, remaps tools and the model name, passes max_tokens and
temperature through, and drops the parameters with no native equivalent. -/
def toNative (customMappings : List (String × String)) (envDefault : Option String)
    (req : ChatCompletionRequest) : Except TranslationFailure NativeRequest :=
  if req.messages.isEmpty then
    Except.error (TranslationFailure.translationError "messages must be a non-empty array")
  else if req.n.getD 1 > 1 then
    Except.error (TranslationFailure.unsupportedFeature "n")
  else
    Except.ok
      { model := mapOpenAIModel customMappings envDefault req.model
        system := extractSystem req.messages
        messages := consolidate (nonSystemMessages req.messages)
        tools := (req.tools.getD []).map translateTool
        max_tokens := req.max_tokens
        temperature := req.temperature
        stream := req.stream }

/-! ## Response Translator

Modelled from the spec: translator.ts is not in the source tree; the
definitions below follow section 4.3 of the specification and the native
response shape of src/types.ts.  The design document is self-contradictory on
the response identifier (its mapping table reuses the native message id while
its example shows a fresh chatcmpl id); following the specification, the
fresh identifier and the current Unix timestamp are supplied by the caller
and the native response is never consulted for them. -/

/-- Native content block, src/types.ts ContentBlock; the tool_use input JSON
object is carried in its serialized form. -/
inductive ContentBlock
  | text (text : String)
  | tool_use (id : String) (name : String) (input : String)
  | other (blockType : String)
  deriving DecidableEq, Repr

/-- Native usage statistics, src/types.ts AnthropicResponse.usage. -/
structure AnthropicUsage where
  input_tokens : Nat
  output_tokens : Nat
  deriving DecidableEq, Repr

/-- Native response, src/types.ts AnthropicResponse (fields the translator
reads). -/
structure AnthropicResponse where
  id : String
  content : List ContentBlock
  model : String
  stop_reason : Option String
  usage : AnthropicUsage
  deriving DecidableEq, Repr

/-- Modelled from the spec: the fixed finish-reason lookup table of section 3,
failing closed to stop on unmapped values. -/
def mapStopReason : Option String → String
  | none => "stop"
  | some s =>
    if s = "end_turn" then "stop"
    else if s = "max_tokens" then "length"
    else if s = "stop_sequence" then "stop"
    else if s = "tool_use" then "tool_calls"
    else "stop"

/-- OpenAI usage triple. -/
structure OpenAIUsage where
  prompt_tokens : Nat
  completion_tokens : Nat
  total_tokens : Nat
  deriving DecidableEq, Repr

/-- OpenAI tool-call function payload: name and the JSON-string arguments. -/
structure ToolCallFunction where
  name : String
  arguments : String
  deriving DecidableEq, Repr

/-- OpenAI emitted tool call. -/
structure ToolCall where
  id : String
  function : ToolCallFunction
  deriving DecidableEq, Repr

/-- OpenAI response message. -/
structure ChatCompletionMessage where
  role : String
  content : String
  tool_calls : List ToolCall
  deriving DecidableEq, Repr

/-- OpenAI response choice. -/
structure Choice where
  index : Nat
  message : ChatCompletionMessage
  finish_reason : String
  deriving DecidableEq, Repr

/-- OpenAI Chat Completions response. -/
structure ChatCompletionResponse where
  id : String
  object : String
  created : Nat
  model : String
  choices : List Choice
  usage : OpenAIUsage
  deriving DecidableEq, Repr

/-- Text payload of a text block, none otherwise. -/
def textOfBlock : ContentBlock → Option String
  | ContentBlock.text t => some t
  | _ => none

/-- Tool-use payload (block id, tool name, serialized input) of a tool_use
block, none otherwise. -/
def toolUseOfBlock : ContentBlock → Option (String × String × String)
  | ContentBlock.tool_use i n inp => some (i, n, inp)
  | _ => none

/-- Test for a tool_use content block. -/
def isToolUseBlock (b : ContentBlock) : Bool :=
  (toolUseOfBlock b).isSome

/-- Modelled from the spec: the response translator (section 4.3).  freshId
and now stand for the generated response identifier and the current Unix
timestamp; originalModel is the externally requested model name echoed back;
text blocks are concatenated in order, tool_use blocks become tool_calls with
a synthetic id, tool use takes precedence for finish_reason, and total_tokens
is always the computed sum. -/
def toOpenAI (freshId : String) (now : Nat) (resp : AnthropicResponse)
    (originalModel : String) : ChatCompletionResponse :=
  let texts := resp.content.filterMap textOfBlock
  let toolCalls := (resp.content.filterMap toolUseOfBlock).map
    (fun x => { id := "call_" ++ x.1, function := { name := x.2.1, arguments := x.2.2 } })
  let finish := if toolCalls.isEmpty then mapStopReason resp.stop_reason else "tool_calls"
  { id := freshId
    object := "chat.completion"
    created := now
    model := originalModel
    choices := [{ index := 0
                  message := { role := "assistant"
                               content := String.join texts
                               tool_calls := toolCalls }
                  finish_reason := finish }]
    usage := { prompt_tokens := resp.usage.input_tokens
               completion_tokens := resp.usage.output_tokens
               total_tokens := resp.usage.input_tokens + resp.usage.output_tokens } }

/-! ## Stream Translator

Modelled from the spec: the streaming translation of translator.ts is not in
the source tree; the state machine below follows section 4.4 of the
specification (AwaitingStart, Streaming, Done, Errored; text fragments
forwarded immediately, tool-input JSON fragments accumulated per block index
and emitted on content_block_stop, stop reason and usage buffered from
message_delta and emitted on the terminal chunk, error events emit one error
chunk and close without the DONE sentinel, unrecognized events are no-ops). -/

/-- Buffered per-connection translator data: tool-argument accumulation per
content-block index, and the stop reason and usage carried by message_delta. -/
structure StreamBuf where
  toolBufs : List (Nat × String)
  stopReason : Option String
  usage : AnthropicUsage
  deriving DecidableEq, Repr

/-- Initial buffer. -/
def emptyBuf : StreamBuf := ⟨[], none, ⟨0, 0⟩⟩

/-- Native SSE event (section 3 StreamEvent). -/
inductive StreamEvent
  | message_start
  | content_block_start (index : Nat)
  | text_delta (index : Nat) (text : String)
  | input_json_delta (index : Nat) (fragment : String)
  | content_block_stop (index : Nat)
  | message_delta (stop_reason : Option String) (usage : Option AnthropicUsage)
  | message_stop
  | error (code : String) (message : String)
  | unknown (eventType : String)
  deriving DecidableEq, Repr

/-- Outbound OpenAI SSE chunk (section 3 StreamChunk); done_chunk is the
literal DONE sentinel. -/
inductive StreamChunk
  | role_chunk
  | content_chunk (text : String)
  | tool_call_chunk (index : Nat) (arguments : String)
  | terminal_chunk (finish_reason : String) (usage : OpenAIUsage)
  | done_chunk
  | error_chunk (code : String) (message : String)
  deriving DecidableEq, Repr

/-- Stream translator state (section 4.4). -/
inductive TransState
  | awaitingStart (buf : StreamBuf)
  | streaming (buf : StreamBuf)
  | done
  | errored
  deriving DecidableEq, Repr

/-- Append a tool-input JSON fragment to the accumulation buffer of one
content-block index. -/
def appendToolFragment (bufs : List (Nat × String)) (i : Nat) (frag : String) :
    List (Nat × String) :=
  match bufs.lookup i with
  | some _ => bufs.map (fun p => if p.1 = i then (p.1, p.2 ++ frag) else p)
  | none => bufs ++ [(i, frag)]

/-- Convert native usage to the OpenAI triple with the computed sum. -/
def toOpenAIUsage (u : AnthropicUsage) : OpenAIUsage :=
  ⟨u.input_tokens, u.output_tokens, u.input_tokens + u.output_tokens⟩

/-- Buffer the stop reason and usage carried by a message_delta event. -/
def applyDelta (buf : StreamBuf) (sr : Option String) (u : Option AnthropicUsage) :
    StreamBuf :=
  { buf with
    stopReason := match sr with | some s => some s | none => buf.stopReason
    usage := u.getD buf.usage }

/-- Event handling shared by the two live states; phase rebuilds the current
state from an updated buffer. -/
def stepActive (phase : StreamBuf → TransState) (buf : StreamBuf) :
    StreamEvent → TransState × List StreamChunk
  | StreamEvent.message_start => (TransState.streaming buf, [StreamChunk.role_chunk])
  | StreamEvent.content_block_start _ => (phase buf, [])
  | StreamEvent.text_delta _ t => (phase buf, [StreamChunk.content_chunk t])
  | StreamEvent.input_json_delta i f =>
    (phase { buf with toolBufs := appendToolFragment buf.toolBufs i f }, [])
  | StreamEvent.content_block_stop i =>
    match buf.toolBufs.lookup i with
    | some args =>
      (phase { buf with toolBufs := buf.toolBufs.filter (fun p => decide (p.1 ≠ i)) },
       [StreamChunk.tool_call_chunk i args])
    | none => (phase buf, [])
  | StreamEvent.message_delta sr u => (phase (applyDelta buf sr u), [])
  | StreamEvent.message_stop =>
    (TransState.done,
     [StreamChunk.terminal_chunk (mapStopReason buf.stopReason) (toOpenAIUsage buf.usage),
      StreamChunk.done_chunk])
  | StreamEvent.error c m => (TransState.errored, [StreamChunk.error_chunk c m])
  | StreamEvent.unknown _ => (phase buf, [])

/-- One transition of the stream translator; the terminal states consume
events without emitting (the outbound stream is closed). -/
def step : TransState → StreamEvent → TransState × List StreamChunk
  | TransState.awaitingStart buf, e => stepActive TransState.awaitingStart buf e
  | TransState.streaming buf, e => stepActive TransState.streaming buf e
  | TransState.done, _ => (TransState.done, [])
  | TransState.errored, _ => (TransState.errored, [])

/-- Run the translator from a state over a finite event sequence,
concatenating the emitted chunks in order. -/
def runFrom (s : TransState) : List StreamEvent → List StreamChunk
  | [] => []
  | e :: rest => (step s e).2 ++ runFrom (step s e).1 rest

/-- Modelled from the spec: the stream translator over one SSE connection,
started in AwaitingStart with an empty buffer. -/
def createStreamTranslator (events : List StreamEvent) : List StreamChunk :=
  runFrom (TransState.awaitingStart emptyBuf) events

/-- Test for a terminal chunk. -/
def isTerminalChunk : StreamChunk → Bool
  | StreamChunk.terminal_chunk _ _ => true
  | _ => false

/-- Test for an error chunk. -/
def isErrorChunk : StreamChunk → Bool
  | StreamChunk.error_chunk _ _ => true
  | _ => false

/-- Test for a native error event. -/
def isErrorEvent : StreamEvent → Bool
  | StreamEvent.error _ _ => true
  | _ => false

/-- Test for a live (non-terminal) translator state. -/
def isActive : TransState → Bool
  | TransState.awaitingStart _ => true
  | TransState.streaming _ => true
  | _ => false

/-! ## System Prompt Guard, client and proxy handler

The native request shape here is src/types.ts AnthropicRequest; the message
content union string | ContentBlock[] is the sum below. -/

/-- Native message, src/types.ts Message. -/
structure Message where
  role : NRole
  content : String ⊕ List ContentBlock
  deriving DecidableEq, Repr

/-- Tool choice, src/types.ts ToolChoice. -/
structure ToolChoice where
  choiceType : String
  name : Option String
  deriving DecidableEq, Repr

/-- Native request, src/types.ts AnthropicRequest. -/
structure AnthropicRequest where
  model : String
  max_tokens : Nat
  system : Option (List SystemMessage)
  messages : List Message
  tools : Option (List NativeTool)
  tool_choice : Option ToolChoice
  stream : Option Bool
  deriving DecidableEq, Repr

/-- The mandatory system prompt, src/client.ts REQUIRED_SYSTEM_PROMPT; it must
be the first element of the system array. -/
def REQUIRED_SYSTEM_PROMPT : SystemMessage :=
  ⟨"You are Claude Code, Anthropic\x27s official CLI for Claude."⟩

/-- Body construction of src/client.ts makeAnthropicRequest (lines 44-55): the
request sent upstream is the caller request with the mandatory prompt
prepended unconditionally to the (possibly absent, then empty) system array;
every other field is spread through unchanged. -/
def makeAnthropicRequestBody (request : AnthropicRequest) : AnthropicRequest :=
  let system := request.system.getD []
  let systemWithRequired := REQUIRED_SYSTEM_PROMPT :: system
  { request with system := some systemWithRequired }

/-- Modelled from the spec: the System Prompt Guard ensureRequiredSystemPrompt
of src/router/middleware.ts, which is not in the source tree.  Per the
specification (section 6) and the README it checks whether the mandatory
prompt is already the first system entry, prepends it when missing, and
leaves the request unchanged when already there. -/
def ensureRequiredSystemPrompt (request : AnthropicRequest) : AnthropicRequest :=
  let system := request.system.getD []
  if system.head? = some REQUIRED_SYSTEM_PROMPT then request
  else { request with system := some (REQUIRED_SYSTEM_PROMPT :: system) }

/-- Outcomes of the effectful steps taken by the proxy handler of
src/router/server.ts: the OAuth token lookup, the upstream fetch (yielding an
HTTP status), the response-body JSON parse (the body is carried opaquely as
its serialized form), and the logging call.  An Except.error value models the
step throwing. -/
structure HandlerEnv where
  tokenResult : Except String String
  fetchResult : Except String Nat
  jsonResult : Except String String
  logResult : Except String Unit

/-- Response body sent to the client: either the upstream response data
forwarded verbatim, or the JSON error object of shape
error.type / error.message built by the catch branch. -/
inductive ResponseBody
  | forwarded (data : String)
  | errorObject (errorType : String) (message : String)
  deriving DecidableEq, Repr

/-- HTTP response produced by the handler. -/
structure HttpResponse where
  status : Nat
  body : ResponseBody
  deriving DecidableEq, Repr

/-- The shared /v1/messages handler of src/router/server.ts (lines 117-189):
apply the guard, obtain a token, forward upstream, parse and log, then relay
the upstream status code and body; any step throwing lands in the catch
branch, which answers 500 with an internal_error JSON error object. -/
def handleMessagesRequest (env : HandlerEnv) (req : AnthropicRequest) : HttpResponse :=
  let result : Except String (Nat × String) := do
    let _modified := ensureRequiredSystemPrompt req
    let _token ← env.tokenResult
    let status ← env.fetchResult
    let data ← env.jsonResult
    let _ ← env.logResult
    pure (status, data)
  match result with
  | Except.ok (status, data) => ⟨status, ResponseBody.forwarded data⟩
  | Except.error e => ⟨500, ResponseBody.errorObject "internal_error" e⟩

/-! ## Concrete instances used by the witnesses and counterexamples -/

/-- Scenario B inbound request: one system message followed by two
consecutive user messages. -/
def reqScenarioB : ChatCompletionRequest :=
  ⟨"gpt-4", [⟨ORole.system, "Be terse."⟩, ⟨ORole.user, "Hi"⟩, ⟨ORole.user, "There"⟩],
   none, none, none, none, none, none, none, none, none⟩

/-- Native request produced for Scenario B. -/
def resScenarioB : NativeRequest :=
  ⟨"claude-sonnet-4-5", [⟨"Be terse."⟩], [⟨NRole.user, "Hi\n\nThere"⟩], [],
   none, none, none⟩

/-- Inbound request whose first (and only) message is assistant-role. -/
def reqAssistantFirst : ChatCompletionRequest :=
  ⟨"gpt-4", [⟨ORole.assistant, "hi"⟩], none, none, none, none, none, none, none, none, none⟩

/-- Inbound request with an empty messages array and n = 2. -/
def reqEmptyN2 : ChatCompletionRequest :=
  ⟨"gpt-4", [], none, none, none, none, none, some 2, none, none, none⟩

/-- Inbound request with one user message and n = 2. -/
def reqN2 : ChatCompletionRequest :=
  ⟨"gpt-4", [⟨ORole.user, "Hello"⟩], none, none, none, none, none, some 2, none, none, none⟩

/-- Valid inbound request carrying max_tokens and temperature. -/
def reqUserHello : ChatCompletionRequest :=
  ⟨"gpt-4", [⟨ORole.user, "Hello"⟩], some 1000, some (7 / 10 : Rat),
   none, none, none, none, none, none, none⟩

/-- Native response containing one tool_use block. -/
def respToolUse : AnthropicResponse :=
  ⟨"msg_123", [ContentBlock.tool_use "toolu_1" "get_weather" "city Paris"],
   "claude-sonnet-4-5", some "end_turn", ⟨10, 5⟩⟩

/-- Native response with stop_reason max_tokens and no tool_use block. -/
def respMaxTokens : AnthropicResponse :=
  ⟨"msg_124", [ContentBlock.text "Hello!"], "claude-sonnet-4-5",
   some "max_tokens", ⟨10, 5⟩⟩

/-- Native request whose system block already begins with the mandatory
prompt. -/
def reqGuarded : AnthropicRequest :=
  ⟨"claude-sonnet-4-5", 100, some [REQUIRED_SYSTEM_PROMPT, ⟨"Be terse."⟩],
   [], none, none, none⟩

/-- Error-free native event sequence ending in message_stop. -/
def evsOk : List StreamEvent :=
  [StreamEvent.message_start, StreamEvent.text_delta 0 "Hi",
   StreamEvent.message_delta (some "end_turn") (some ⟨10, 5⟩),
   StreamEvent.message_stop]

/-- Error-free, stop-free native event sequence. -/
def evsPre : List StreamEvent :=
  [StreamEvent.message_start, StreamEvent.text_delta 0 "Hi"]

/-! ## Theorems -/

/-- C2: mapOpenAIModel is a total function on strings returning a non-empty
native model identifier, resolved first-match-wins through the override file
mapping, the global override model, the case-insensitive low-tier patterns,
and the default mid-tier model; gpt-3.5-turbo maps to the low-tier model and
gpt-5.1-codex to the default mid-tier model. -/
theorem mapOpenAIModel_total_and_cascade :
    (∀ cm env m, mapOpenAIModel cm env m ≠ "")
  ∧ mapOpenAIModel [] none "gpt-3.5-turbo" = "claude-haiku-4-5"
  ∧ mapOpenAIModel [] none "gpt-5.1-codex" = "claude-sonnet-4-5"
  ∧ mapOpenAIModel [("gpt-3.5-turbo", "claude-opus-4-1")] none "gpt-3.5-turbo"
      = "claude-opus-4-1"
  ∧ mapOpenAIModel [] (some "claude-haiku-4-5") "gpt-5.1-codex" = "claude-haiku-4-5"
  ∧ mapOpenAIModel [("gpt-4o", "claude-opus-4-1")] (some "claude-haiku-4-5") "gpt-4o"
      = "claude-opus-4-1" := by
  refine ⟨?_, by decide, by decide, by decide, by decide, by decide⟩
  intro cm env m
  unfold mapOpenAIModel mapByPattern
  dsimp only
  split_ifs with h1 h2 h3 <;> first | exact h1 | exact h2 | decide

/-- C5: the usage produced by toOpenAI maps input_tokens to prompt_tokens and
output_tokens to completion_tokens, and total_tokens is always the computed
sum of the two. -/
theorem toOpenAI_usage_sum : ∀ (freshId : String) (now : Nat)
    (resp : AnthropicResponse) (m : String),
    (toOpenAI freshId now resp m).usage.prompt_tokens = resp.usage.input_tokens
  ∧ (toOpenAI freshId now resp m).usage.completion_tokens = resp.usage.output_tokens
  ∧ (toOpenAI freshId now resp m).usage.total_tokens =
      (toOpenAI freshId now resp m).usage.prompt_tokens +
      (toOpenAI freshId now resp m).usage.completion_tokens := by
  intro freshId now resp m
  exact ⟨rfl, rfl, rfl⟩

/-- C8: toOpenAI takes its response identifier and Unix timestamp from the
supplied fresh values, never from the native response, and echoes the
originally requested model name, never the mapped native model. -/
theorem toOpenAI_metadata : ∀ (freshId : String) (now : Nat)
    (resp : AnthropicResponse) (m : String),
    (toOpenAI freshId now resp m).id = freshId
  ∧ (toOpenAI freshId now resp m).created = now
  ∧ (toOpenAI freshId now resp m).model = m
  ∧ (m ≠ resp.model → (toOpenAI freshId now resp m).model ≠ resp.model) := by
  intro freshId now resp m
  exact ⟨rfl, rfl, rfl, fun h => h⟩

/-- Witness for C8 at a concrete native response and model name. -/
theorem toOpenAI_metadata_witness :
    (toOpenAI "chatcmpl-abc" 1234567890 respMaxTokens "gpt-4").id = "chatcmpl-abc"
  ∧ (toOpenAI "chatcmpl-abc" 1234567890 respMaxTokens "gpt-4").created = 1234567890
  ∧ (toOpenAI "chatcmpl-abc" 1234567890 respMaxTokens "gpt-4").model = "gpt-4"
  ∧ (toOpenAI "chatcmpl-abc" 1234567890 respMaxTokens "gpt-4").model ≠ respMaxTokens.model :=
  ⟨(toOpenAI_metadata "chatcmpl-abc" 1234567890 respMaxTokens "gpt-4").1,
   (toOpenAI_metadata "chatcmpl-abc" 1234567890 respMaxTokens "gpt-4").2.1,
   (toOpenAI_metadata "chatcmpl-abc" 1234567890 respMaxTokens "gpt-4").2.2.1,
   (toOpenAI_metadata "chatcmpl-abc" 1234567890 respMaxTokens "gpt-4").2.2.2 (by decide)⟩

/-- C10: the body sent upstream by makeAnthropicRequest differs from the
caller request only in the system field, which becomes the mandatory prompt
followed by the original system entries (empty when absent); all other fields
pass through unchanged, and the prepending is unconditional. -/
theorem makeAnthropicRequestBody_frame : ∀ req : AnthropicRequest,
    (makeAnthropicRequestBody req).model = req.model
  ∧ (makeAnthropicRequestBody req).max_tokens = req.max_tokens
  ∧ (makeAnthropicRequestBody req).messages = req.messages
  ∧ (makeAnthropicRequestBody req).tools = req.tools
  ∧ (makeAnthropicRequestBody req).tool_choice = req.tool_choice
  ∧ (makeAnthropicRequestBody req).stream = req.stream
  ∧ (makeAnthropicRequestBody req).system =
      some (REQUIRED_SYSTEM_PROMPT :: req.system.getD []) := by
  intro req
  exact ⟨rfl, rfl, rfl, rfl, rfl, rfl, rfl⟩

/-- C6: the System Prompt Guard is idempotent, and a request whose system
block already begins with the mandatory prompt passes through unchanged. -/
theorem ensureRequiredSystemPrompt_idempotent :
    (∀ r : AnthropicRequest,
      ensureRequiredSystemPrompt (ensureRequiredSystemPrompt r) =
        ensureRequiredSystemPrompt r)
  ∧ (∀ r : AnthropicRequest,
      (r.system.getD []).head? = some REQUIRED_SYSTEM_PROMPT →
        ensureRequiredSystemPrompt r = r) := by
  constructor
  · intro r
    by_cases h : (r.system.getD []).head? = some REQUIRED_SYSTEM_PROMPT
    · simp [ensureRequiredSystemPrompt, h]
    · simp [ensureRequiredSystemPrompt, h]
  · intro r h
    simp [ensureRequiredSystemPrompt, h]

/-- Witness for C6 at a request already carrying the mandatory prompt
first. -/
theorem ensureRequiredSystemPrompt_idempotent_witness :
    ensureRequiredSystemPrompt reqGuarded = reqGuarded :=
  ensureRequiredSystemPrompt_idempotent.2 reqGuarded rfl

/-- C9: every outcome of the /v1/messages handler is either the upstream
status and body forwarded verbatim (when every step succeeds) or an HTTP 500
carrying a well-formed JSON error object of shape error.type / error.message
(when some step throws); no third shape exists. -/
theorem handleMessagesRequest_shape : ∀ (env : HandlerEnv) (req : AnthropicRequest),
    (∃ status data,
      handleMessagesRequest env req = ⟨status, ResponseBody.forwarded data⟩ ∧
      env.fetchResult = Except.ok status ∧ env.jsonResult = Except.ok data)
  ∨ (∃ e,
      handleMessagesRequest env req = ⟨500, ResponseBody.errorObject "internal_error" e⟩ ∧
      (env.tokenResult = Except.error e ∨ env.fetchResult = Except.error e ∨
       env.jsonResult = Except.error e ∨ env.logResult = Except.error e)) := by
  intro env req
  obtain ⟨tk, ft, js, lg⟩ := env
  cases tk with
  | error e => exact Or.inr ⟨e, rfl, Or.inl rfl⟩
  | ok t =>
    cases ft with
    | error e => exact Or.inr ⟨e, rfl, Or.inr (Or.inl rfl)⟩
    | ok st =>
      cases js with
      | error e => exact Or.inr ⟨e, rfl, Or.inr (Or.inr (Or.inl rfl))⟩
      | ok d =>
        cases lg with
        | error e => exact Or.inr ⟨e, rfl, Or.inr (Or.inr (Or.inr rfl))⟩
        | ok u => exact Or.inl ⟨st, d, rfl, rfl, rfl⟩

/-- The consolidation worker always opens its output with the group being
accumulated, and its output has pairwise-distinct adjacent roles. -/
theorem consolidateGo_head_chain : ∀ (l : List ChatMessage) (r : NRole) (acc : String),
    ∃ c rest, consolidateGo r acc l = ⟨r, c⟩ :: rest ∧
      List.Chain' (fun a b : NativeMessage => a.role ≠ b.role) (⟨r, c⟩ :: rest) := by
  intro l
  induction l with
  | nil =>
    intro r acc
    exact ⟨acc, [], rfl, List.chain'_singleton _⟩
  | cons m t ih =>
    intro r acc
    by_cases h : mapRole m.role = r
    · obtain ⟨c, rest, heq, hch⟩ := ih r (acc ++ "\n\n" ++ m.content)
      refine ⟨c, rest, ?_, hch⟩
      simp [consolidateGo, h, heq]
    · obtain ⟨c, rest, heq, hch⟩ := ih (mapRole m.role) m.content
      refine ⟨acc, ⟨mapRole m.role, c⟩ :: rest, ?_, ?_⟩
      · simp [consolidateGo, h, heq]
      · exact List.chain'_cons.2 ⟨fun hh => h hh.symm, hch⟩

/-- Adjacent roles in a consolidated message list are always distinct. -/
theorem consolidate_chain (l : List ChatMessage) :
    List.Chain' (fun a b : NativeMessage => a.role ≠ b.role) (consolidate l) := by
  cases l with
  | nil => simp [consolidate]
  | cons m t =>
    obtain ⟨c, rest, heq, hch⟩ := consolidateGo_head_chain t (mapRole m.role) m.content
    rw [consolidate, heq]
    exact hch

/-- A consolidated non-empty list opens with the mapped role of its first
message. -/
theorem consolidate_head (m : ChatMessage) (t : List ChatMessage) :
    ∃ c rest, consolidate (m :: t) = ⟨mapRole m.role, c⟩ :: rest := by
  obtain ⟨c, rest, heq, _⟩ := consolidateGo_head_chain t (mapRole m.role) m.content
  exact ⟨c, rest, heq⟩

/-- Merging law: two leading messages of equal mapped role consolidate
exactly as the single message joining their contents with a blank line. -/
theorem consolidate_merge (m₁ m₂ : ChatMessage) (l : List ChatMessage)
    (h : mapRole m₂.role = mapRole m₁.role) :
    consolidate (m₁ :: m₂ :: l) =
      consolidate (⟨m₁.role, m₁.content ++ "\n\n" ++ m₂.content⟩ :: l) := by
  simp [consolidate, consolidateGo, h]

/-- Splitting law: two leading messages of distinct mapped roles consolidate
to the first closing its own native message. -/
theorem consolidate_split (m₁ m₂ : ChatMessage) (l : List ChatMessage)
    (h : mapRole m₂.role ≠ mapRole m₁.role) :
    consolidate (m₁ :: m₂ :: l) =
      ⟨mapRole m₁.role, m₁.content⟩ :: consolidate (m₂ :: l) := by
  simp [consolidate, consolidateGo, h]

/-- C1 (amended): an accepted request translates to native messages with
strictly alternating (pairwise distinct adjacent) roles drawn only from user
and assistant; the output is the consolidation of the non-system inbound
messages, which merges consecutive equal mapped roles (tool mapping to user)
by joining with a blank-line separator in order; and the output starts with
user whenever the first non-system inbound message maps to user. -/
theorem toNative_alternation (cm : List (String × String)) (envDefault : Option String)
    (req : ChatCompletionRequest) (res : NativeRequest)
    (hok : toNative cm envDefault req = Except.ok res) :
    List.Chain' (fun a b : NativeMessage => a.role ≠ b.role) res.messages
  ∧ res.messages = consolidate (nonSystemMessages req.messages)
  ∧ (∀ x ∈ res.messages, x.role = NRole.user ∨ x.role = NRole.assistant)
  ∧ (∀ m t, nonSystemMessages req.messages = m :: t → mapRole m.role = NRole.user →
      ∃ c rest, res.messages = ⟨NRole.user, c⟩ :: rest)
  ∧ (∀ m₁ m₂ l, mapRole m₂.role = mapRole m₁.role →
      consolidate (m₁ :: m₂ :: l) =
        consolidate (⟨m₁.role, m₁.content ++ "\n\n" ++ m₂.content⟩ :: l)) := by
  unfold toNative at hok
  split at hok
  · simp at hok
  · split at hok
    · simp at hok
    · injection hok with h
      subst h
      refine ⟨consolidate_chain _, rfl, ?_, ?_, fun m₁ m₂ l h => consolidate_merge m₁ m₂ l h⟩
      · intro x _
        cases x.role
        · exact Or.inl rfl
        · exact Or.inr rfl
      · intro m t hms hu
        obtain ⟨c, rest, heq⟩ := consolidate_head m t
        rw [hu] at heq
        refine ⟨c, rest, ?_⟩
        show consolidate (nonSystemMessages req.messages) = _
        rw [hms]
        exact heq

/-- Witness for C1 at the Scenario B request: the consolidated output starts
with a user message. -/
theorem toNative_alternation_witness :
    ∃ c rest, resScenarioB.messages = ⟨NRole.user, c⟩ :: rest :=
  (toNative_alternation [] none reqScenarioB resScenarioB rfl).2.2.2.1
    ⟨ORole.user, "Hi"⟩ [⟨ORole.user, "There"⟩] rfl rfl

/-- Counterexample for C1 as stated: a request whose only message is
assistant-role is accepted by toNative (messages non-empty) yet the resulting
native messages start with assistant, not user. -/
theorem toNative_assistant_first_counterexample :
    toNative [] none reqAssistantFirst =
      Except.ok
        { model := "claude-sonnet-4-5", system := [],
          messages := [⟨NRole.assistant, "hi"⟩], tools := [],
          max_tokens := none, temperature := none, stream := none }
  ∧ NRole.assistant ≠ NRole.user :=
  ⟨rfl, by decide⟩

/-- C7 (amended): toNative fails with a TranslationError exactly when the
inbound messages are absent or empty; it fails with an
UnsupportedFeatureError exactly when the messages are non-empty and n is
present and greater than 1 (the empty-messages check runs first, so
TranslationError wins on overlap); every other input succeeds with
max_tokens and temperature passed through unchanged, and the dropped
parameters (presence_penalty, frequency_penalty, logit_bias, logprobs) never
influence the result. -/
theorem toNative_error_conditions (cm : List (String × String))
    (envDefault : Option String) (req : ChatCompletionRequest) :
    (req.messages = [] → toNative cm envDefault req =
      Except.error (TranslationFailure.translationError "messages must be a non-empty array"))
  ∧ (req.messages ≠ [] → req.n.getD 1 > 1 →
      toNative cm envDefault req = Except.error (TranslationFailure.unsupportedFeature "n"))
  ∧ (req.messages ≠ [] → ¬ req.n.getD 1 > 1 →
      ∃ res, toNative cm envDefault req = Except.ok res ∧
        res.max_tokens = req.max_tokens ∧ res.temperature = req.temperature)
  ∧ (∀ p f lb lp, toNative cm envDefault
      { req with presence_penalty := p, frequency_penalty := f,
                 logit_bias := lb, logprobs := lp } =
      toNative cm envDefault req) := by
  refine ⟨?_, ?_, ?_, ?_⟩
  · intro h
    unfold toNative
    rw [if_pos (by simp [h])]
  · intro h1 h2
    unfold toNative
    rw [if_neg (by simp [List.isEmpty_iff, h1]), if_pos h2]
  · intro h1 h2
    unfold toNative
    rw [if_neg (by simp [List.isEmpty_iff, h1]), if_neg h2]
    exact ⟨_, rfl, rfl, rfl⟩
  · intro p f lb lp
    cases req
    rfl

/-- Witness for C7 at concrete requests exercising the three branches. -/
theorem toNative_error_conditions_witness :
    toNative [] none reqEmptyN2 =
      Except.error (TranslationFailure.translationError "messages must be a non-empty array")
  ∧ toNative [] none reqN2 = Except.error (TranslationFailure.unsupportedFeature "n")
  ∧ (∃ res, toNative [] none reqUserHello = Except.ok res ∧
      res.max_tokens = reqUserHello.max_tokens ∧
      res.temperature = reqUserHello.temperature) :=
  ⟨(toNative_error_conditions [] none reqEmptyN2).1 rfl,
   (toNative_error_conditions [] none reqN2).2.1 (by decide) (by decide),
   (toNative_error_conditions [] none reqUserHello).2.2.1 (by decide) (by decide)⟩

/-- Counterexample for C7 as stated: with empty messages and n = 2 both
failure conditions hold, and toNative reports the TranslationError, not the
UnsupportedFeatureError the claim requires for every n greater than 1. -/
theorem toNative_overlap_counterexample :
    reqEmptyN2.n = some 2
  ∧ reqEmptyN2.messages = []
  ∧ toNative [] none reqEmptyN2 =
      Except.error (TranslationFailure.translationError "messages must be a non-empty array")
  ∧ (∀ fieldName, TranslationFailure.translationError "messages must be a non-empty array" ≠
      TranslationFailure.unsupportedFeature fieldName) :=
  ⟨rfl, rfl, rfl, fun _ h => TranslationFailure.noConfusion h⟩

/-- The tool-call list extracted from native content is empty exactly when no
tool_use block occurs. -/
theorem filterMap_toolUse_isEmpty (content : List ContentBlock) :
    (content.filterMap toolUseOfBlock).isEmpty = !(content.any isToolUseBlock) := by
  induction content with
  | nil => rfl
  | cons b t ih =>
    cases b <;> simp [toolUseOfBlock, isToolUseBlock, ih]

/-- Mapping over a list preserves emptiness. -/
theorem isEmpty_map {α β : Type} (f : α → β) (l : List α) :
    (l.map f).isEmpty = l.isEmpty := by
  cases l <;> rfl

/-- Every finish reason produced by the lookup table lies in the OpenAI
enumeration stop / length / tool_calls. -/
theorem mapStopReason_mem (r : Option String) :
    mapStopReason r ∈ (["stop", "length", "tool_calls"] : List String) := by
  cases r with
  | none => simp [mapStopReason]
  | some s =>
    simp only [mapStopReason]
    split_ifs <;> simp

/-- The choices array built by toOpenAI, with finish_reason restated through
the presence of a tool_use block. -/
theorem toOpenAI_choices (freshId : String) (now : Nat) (resp : AnthropicResponse)
    (m : String) :
    (toOpenAI freshId now resp m).choices =
      [{ index := 0
         message := { role := "assistant"
                      content := String.join (resp.content.filterMap textOfBlock)
                      tool_calls := (resp.content.filterMap toolUseOfBlock).map
                        (fun x => { id := "call_" ++ x.1,
                                    function := { name := x.2.1, arguments := x.2.2 } }) }
         finish_reason := if resp.content.any isToolUseBlock then "tool_calls"
                          else mapStopReason resp.stop_reason }] := by
  unfold toOpenAI
  dsimp only
  congr 1
  rw [isEmpty_map, filterMap_toolUse_isEmpty]
  by_cases h : resp.content.any isToolUseBlock <;> simp [h]

/-- C3: toOpenAI maps finish_reason by the fixed table (end_turn to stop,
max_tokens to length, stop_sequence to stop, tool_use to tool_calls), any
native stop reason outside the table fails closed to stop, and the presence
of a tool_use block forces tool_calls regardless of the native stop
reason. -/
theorem toOpenAI_finish_reason (freshId : String) (now : Nat)
    (resp : AnthropicResponse) (m : String) :
    (∃ choice, (toOpenAI freshId now resp m).choices = [choice]
      ∧ (resp.content.any isToolUseBlock = true → choice.finish_reason = "tool_calls")
      ∧ (resp.content.any isToolUseBlock = false →
          choice.finish_reason = mapStopReason resp.stop_reason)
      ∧ choice.finish_reason ∈ (["stop", "length", "tool_calls"] : List String))
  ∧ mapStopReason (some "end_turn") = "stop"
  ∧ mapStopReason (some "max_tokens") = "length"
  ∧ mapStopReason (some "stop_sequence") = "stop"
  ∧ mapStopReason (some "tool_use") = "tool_calls"
  ∧ mapStopReason none = "stop"
  ∧ (∀ s, s ≠ "end_turn" → s ≠ "max_tokens" → s ≠ "stop_sequence" → s ≠ "tool_use" →
      mapStopReason (some s) = "stop") := by
  refine ⟨⟨_, toOpenAI_choices freshId now resp m, ?_, ?_, ?_⟩,
    rfl, rfl, rfl, rfl, rfl, ?_⟩
  · intro h
    simp [h]
  · intro h
    simp [h]
  · by_cases h : resp.content.any isToolUseBlock
    · simp [h]
    · simp only [h]
      simpa using mapStopReason_mem resp.stop_reason
  · intro s h1 h2 h3 h4
    simp [mapStopReason, h1, h2, h3, h4]

/-- Witness for C3: a tool_use response yields tool_calls even though its
native stop reason is end_turn, and a max_tokens response yields length. -/
theorem toOpenAI_finish_reason_witness :
    (∃ choice, (toOpenAI "chatcmpl-1" 111 respToolUse "gpt-4").choices = [choice] ∧
      choice.finish_reason = "tool_calls")
  ∧ (∃ choice, (toOpenAI "chatcmpl-1" 111 respMaxTokens "gpt-4").choices = [choice] ∧
      choice.finish_reason = "length") := by
  constructor
  · obtain ⟨⟨c, hc, h1, _, _⟩, _⟩ := toOpenAI_finish_reason "chatcmpl-1" 111 respToolUse "gpt-4"
    exact ⟨c, hc, h1 rfl⟩
  · obtain ⟨⟨c, hc, _, h2, _⟩, _⟩ := toOpenAI_finish_reason "chatcmpl-1" 111 respMaxTokens "gpt-4"
    exact ⟨c, hc, (h2 rfl).trans rfl⟩

/-- From a terminal Done state the translator emits nothing. -/
theorem runFrom_done (evs : List StreamEvent) :
    runFrom TransState.done evs = [] := by
  induction evs with
  | nil => rfl
  | cons e t ih => simp [runFrom, step, ih]

/-- From a terminal Errored state the translator emits nothing. -/
theorem runFrom_errored (evs : List StreamEvent) :
    runFrom TransState.errored evs = [] := by
  induction evs with
  | nil => rfl
  | cons e t ih => simp [runFrom, step, ih]

/-- A live state stepped by an event that is neither an error nor
message_stop stays live and emits only intermediate chunks: no terminal
chunk, no DONE sentinel, no error chunk. -/
theorem step_active (s : TransState) (e : StreamEvent) (hs : isActive s = true)
    (he : isErrorEvent e = false) (hstop : e ≠ StreamEvent.message_stop) :
    isActive (step s e).1 = true ∧
    ∀ c ∈ (step s e).2,
      isTerminalChunk c = false ∧ c ≠ StreamChunk.done_chunk ∧ isErrorChunk c = false := by
  have hph : ∀ (phase : StreamBuf → TransState) (buf : StreamBuf),
      (∀ b, isActive (phase b) = true) →
      isActive (stepActive phase buf e).1 = true ∧
      ∀ c ∈ (stepActive phase buf e).2,
        isTerminalChunk c = false ∧ c ≠ StreamChunk.done_chunk ∧ isErrorChunk c = false := by
    intro phase buf hphase
    cases e with
    | message_start =>
      exact ⟨rfl, by simp [stepActive, isTerminalChunk, isErrorChunk]⟩
    | content_block_start i =>
      exact ⟨hphase _, by simp [stepActive]⟩
    | text_delta i t =>
      exact ⟨hphase _, by simp [stepActive, isTerminalChunk, isErrorChunk]⟩
    | input_json_delta i f =>
      exact ⟨hphase _, by simp [stepActive]⟩
    | content_block_stop i =>
      constructor
      · dsimp only [stepActive]
        rcases buf.toolBufs.lookup i with _ | args
        · exact hphase _
        · exact hphase _
      · dsimp only [stepActive]
        rcases buf.toolBufs.lookup i with _ | args
        · simp
        · simp [isTerminalChunk, isErrorChunk]
    | message_delta sr u =>
      exact ⟨hphase _, by simp [stepActive]⟩
    | message_stop => exact absurd rfl hstop
    | error c m => simp [isErrorEvent] at he
    | unknown t =>
      exact ⟨hphase _, by simp [stepActive]⟩
  cases s with
  | awaitingStart buf => exact hph TransState.awaitingStart buf (fun b => rfl)
  | streaming buf => exact hph TransState.streaming buf (fun b => rfl)
  | done => simp [isActive] at hs
  | errored => simp [isActive] at hs

/-- Run over an error-free event sequence ending in message_stop: the output
is intermediate chunks, then exactly one terminal chunk, then the DONE
sentinel, and nothing after it. -/
theorem runFrom_stop_terminated : ∀ (evs : List StreamEvent) (s : TransState),
    isActive s = true → (∀ e ∈ evs, isErrorEvent e = false) →
    evs.getLast? = some StreamEvent.message_stop →
    ∃ pre fr u, runFrom s evs = pre ++ [StreamChunk.terminal_chunk fr u, StreamChunk.done_chunk] ∧
      ∀ c ∈ pre, isTerminalChunk c = false ∧ c ≠ StreamChunk.done_chunk := by
  intro evs
  induction evs with
  | nil =>
    intro s _ _ hlast
    simp at hlast
  | cons e t ih =>
    intro s hs herr hlast
    by_cases hstop : e = StreamEvent.message_stop
    · subst hstop
      cases s with
      | awaitingStart buf =>
        refine ⟨[], mapStopReason buf.stopReason, toOpenAIUsage buf.usage, ?_, by simp⟩
        simp [runFrom, step, stepActive, runFrom_done]
      | streaming buf =>
        refine ⟨[], mapStopReason buf.stopReason, toOpenAIUsage buf.usage, ?_, by simp⟩
        simp [runFrom, step, stepActive, runFrom_done]
      | done => simp [isActive] at hs
      | errored => simp [isActive] at hs
    · have ht : t ≠ [] := by
        intro h
        subst h
        simp at hlast
        exact hstop hlast
      have hlast2 : t.getLast? = some StreamEvent.message_stop := by
        cases t with
        | nil => exact absurd rfl ht
        | cons x xs => rw [← hlast, List.getLast?_cons_cons]
      have he : isErrorEvent e = false := herr e (by simp)
      obtain ⟨hact, hclean⟩ := step_active s e hs he hstop
      obtain ⟨pre, fr, u, heq, hpre⟩ :=
        ih (step s e).1 hact (fun x hx => herr x (by simp [hx])) hlast2
      refine ⟨(step s e).2 ++ pre, fr, u, ?_, ?_⟩
      · rw [runFrom, heq, List.append_assoc]
      · intro c hc
        rcases List.mem_append.1 hc with h | h
        · exact ⟨(hclean c h).1, (hclean c h).2.1⟩
        · exact hpre c h

/-- Run over an error-free, stop-free prefix followed by an error event: the
output is intermediate chunks then exactly one error chunk; no DONE sentinel
is ever emitted and everything after the error is ignored. -/
theorem runFrom_error_closes : ∀ (evs : List StreamEvent) (s : TransState),
    isActive s = true →
    (∀ e ∈ evs, isErrorEvent e = false ∧ e ≠ StreamEvent.message_stop) →
    ∀ (code msg : String) (rest : List StreamEvent),
    ∃ pre, runFrom s (evs ++ StreamEvent.error code msg :: rest) =
        pre ++ [StreamChunk.error_chunk code msg] ∧
      ∀ c ∈ pre, isErrorChunk c = false ∧ c ≠ StreamChunk.done_chunk := by
  intro evs
  induction evs with
  | nil =>
    intro s hs _ code msg rest
    cases s with
    | awaitingStart buf =>
      exact ⟨[], by simp [runFrom, step, stepActive, runFrom_errored], by simp⟩
    | streaming buf =>
      exact ⟨[], by simp [runFrom, step, stepActive, runFrom_errored], by simp⟩
    | done => simp [isActive] at hs
    | errored => simp [isActive] at hs
  | cons e t ih =>
    intro s hs hfacts code msg rest
    obtain ⟨he, hstop⟩ := hfacts e (by simp)
    obtain ⟨hact, hclean⟩ := step_active s e hs he hstop
    obtain ⟨pre, heq, hpre⟩ :=
      ih (step s e).1 hact (fun x hx => hfacts x (by simp [hx])) code msg rest
    refine ⟨(step s e).2 ++ pre, ?_, ?_⟩
    · rw [List.cons_append, runFrom, heq, List.append_assoc]
    · intro c hc
      rcases List.mem_append.1 hc with h | h
      · exact ⟨(hclean c h).2.2, (hclean c h).2.1⟩
      · exact hpre c h

/-- C4 (amended): for every error-free finite native event sequence ending in
message_stop, the emitted chunk sequence ends with exactly one terminal chunk
immediately followed by the DONE sentinel and nothing after it; and whenever
an error event arrives after an error-free, stop-free prefix, exactly one
error chunk is emitted, the stream closes, and no DONE sentinel is ever
emitted. -/
theorem createStreamTranslator_framing :
    (∀ evs : List StreamEvent, (∀ e ∈ evs, isErrorEvent e = false) →
      evs.getLast? = some StreamEvent.message_stop →
      ∃ pre fr u, createStreamTranslator evs =
          pre ++ [StreamChunk.terminal_chunk fr u, StreamChunk.done_chunk] ∧
        ∀ c ∈ pre, isTerminalChunk c = false ∧ c ≠ StreamChunk.done_chunk)
  ∧ (∀ (evs : List StreamEvent) (code msg : String) (rest : List StreamEvent),
      (∀ e ∈ evs, isErrorEvent e = false ∧ e ≠ StreamEvent.message_stop) →
      ∃ pre, createStreamTranslator (evs ++ StreamEvent.error code msg :: rest) =
          pre ++ [StreamChunk.error_chunk code msg] ∧
        ∀ c ∈ pre, isErrorChunk c = false ∧ c ≠ StreamChunk.done_chunk) :=
  ⟨fun evs herr hlast =>
    runFrom_stop_terminated evs (TransState.awaitingStart emptyBuf) rfl herr hlast,
   fun evs code msg rest hfacts =>
    runFrom_error_closes evs (TransState.awaitingStart emptyBuf) rfl hfacts code msg rest⟩

/-- Witness for C4 on concrete event sequences for both the message_stop and
the error path. -/
theorem createStreamTranslator_framing_witness :
    (∃ pre fr u, createStreamTranslator evsOk =
        pre ++ [StreamChunk.terminal_chunk fr u, StreamChunk.done_chunk] ∧
      ∀ c ∈ pre, isTerminalChunk c = false ∧ c ≠ StreamChunk.done_chunk)
  ∧ (∃ pre, createStreamTranslator (evsPre ++ StreamEvent.error "overloaded_error" "Overloaded" :: []) =
        pre ++ [StreamChunk.error_chunk "overloaded_error" "Overloaded"] ∧
      ∀ c ∈ pre, isErrorChunk c = false ∧ c ≠ StreamChunk.done_chunk) :=
  ⟨createStreamTranslator_framing.1 evsOk (by decide) rfl,
   createStreamTranslator_framing.2 evsPre "overloaded_error" "Overloaded" [] (by decide)⟩

/-- Counterexample for C4 as stated: this event sequence ends in
message_stop, yet because an error event precedes the stop the emitted
sequence is a single error chunk and does not end with a terminal chunk
followed by the DONE sentinel. -/
theorem createStreamTranslator_error_counterexample :
    createStreamTranslator
        [StreamEvent.error "overloaded_error" "Overloaded", StreamEvent.message_stop] =
      [StreamChunk.error_chunk "overloaded_error" "Overloaded"]
  ∧ StreamChunk.error_chunk "overloaded_error" "Overloaded" ≠ StreamChunk.done_chunk :=
  ⟨rfl, by decide⟩
